import Mathlib

/-!
Verification of the sales-ledger pipeline of `src/main.py`
(Executive-Wise-Customer-Sales-Analysis).

The pipeline is: validate required columns, coerce the date and the seven
monetary columns, derive `outstanding` and `exec_commission_calc`, filter by
date range and executive set, then aggregate (scalar totals, group-by sums,
per-customer averages).

Embedding choices:
* money is modelled by `ℚ` (pandas float arithmetic, taken at exact value);
* a parsed date is `Option ℤ` (`none` models pandas `NaT`);
* a raw cell is `RawVal` (`na` = missing cell, `bad` = unparsable text);
* a pandas `DataFrame` is a `List` of records; `pd.Series.mean()` of an
  empty series is `NaN`, modelled by `Option ℚ` returning `none`;
* `st.stop()` after a failed date-range check is modelled by the filter
  stage returning `Except.error`.
-/

/-- A raw cell of a monetary column: a number, a missing cell (`NaN`),
or text that `pd.to_numeric(..., errors='coerce')` cannot parse. -/
inductive RawVal where
  | num (q : ℚ)
  | na
  | bad (s : String)
deriving DecidableEq

/-- A raw cell of the `date` column: a parsable date (as an ordinal day),
a missing cell, or text that `pd.to_datetime(..., errors="coerce")`
cannot parse. -/
inductive RawDate where
  | val (d : ℤ)
  | na
  | bad (s : String)
deriving DecidableEq

/-- One raw input row, before `validate_and_prepare` runs
(`src/main.py:86`). Text columns are kept as strings. -/
structure RawRecord where
  date : RawDate
  orderNo : String
  executive : String
  customer : String
  openingBalance : RawVal
  salesValue : RawVal
  salesReturn : RawVal
  salesInAndOut : RawVal
  paidAmount : RawVal
  cashback : RawVal
  commission : RawVal
deriving DecidableEq

/-- One prepared ledger record, after `validate_and_prepare`
(`src/main.py:86-112`): parsed date, coerced monetary columns and the two
derived columns. -/
structure Rec where
  date : Option ℤ
  orderNo : String
  executive : String
  customer : String
  openingBalance : ℚ
  salesValue : ℚ
  salesReturn : ℚ
  salesInAndOut : ℚ
  paidAmount : ℚ
  cashback : ℚ
  commission : ℚ
  outstanding : ℚ
  execCommissionCalc : ℚ
deriving DecidableEq

/-- The eleven required (already normalized) column names
(`src/main.py:51-55`). -/
def REQUIRED_COLUMNS : List String :=
  ["date", "order no", "executive name", "customer name",
   "opening balance", "sales value", "sales return",
   "sales in and out", "paid amount", "cashback", "commission"]

/-- Python `str.strip()` whitespace test (space, tab, newline, carriage
return, vertical tab, form feed). -/
def isSpaceChar (ch : Char) : Bool :=
  ch = ' ' || ch = '\t' || ch = '\n' || ch = '\r' || ch = '\x0b' || ch = '\x0c'

/-- Python `str.strip()`: drop leading and trailing whitespace. -/
def trimChars (l : List Char) : List Char :=
  ((l.dropWhile isSpaceChar).reverse.dropWhile isSpaceChar).reverse

/-- Column-name normalization `str(c).strip().lower()` (`src/main.py:88`),
written over the character list so it evaluates structurally. -/
def normalizeCol (c : String) : String :=
  String.mk ((trimChars c.data).map Char.toLower)

/-- `pd.to_numeric(col.fillna(0), errors='coerce').fillna(0)`
(`src/main.py:100-101`): a missing cell becomes `0`, an unparsable cell
becomes `NaN` and then `0`, a numeric cell keeps its value. -/
def coerceNum : RawVal → ℚ
  | RawVal.num q => q
  | RawVal.na => 0
  | RawVal.bad _ => 0

/-- `pd.to_datetime(col, errors="coerce")` (`src/main.py:95`): unparsable
or missing cells become `NaT`, modelled as `none`. -/
def parseDate : RawDate → Option ℤ
  | RawDate.val d => some d
  | RawDate.na => none
  | RawDate.bad _ => none

/-- Per-row part of `validate_and_prepare` (`src/main.py:94-111`): parse
the date, coerce the seven monetary columns, derive `outstanding` and
`exec_commission_calc = paid amount * 0.01`. -/
def prepareRow (r : RawRecord) : Rec :=
  let ob := coerceNum r.openingBalance
  let sv := coerceNum r.salesValue
  let sr := coerceNum r.salesReturn
  let sio := coerceNum r.salesInAndOut
  let pa := coerceNum r.paidAmount
  let cb := coerceNum r.cashback
  let cm := coerceNum r.commission
  { date := parseDate r.date
    orderNo := r.orderNo
    executive := r.executive
    customer := r.customer
    openingBalance := ob
    salesValue := sv
    salesReturn := sr
    salesInAndOut := sio
    paidAmount := pa
    cashback := cb
    commission := cm
    outstanding := ob + sv - sr - sio - pa - cb - cm
    execCommissionCalc := pa * (1 / 100) }

/-- `missing = [c for c in REQUIRED_COLUMNS if c not in df.columns]` after
normalizing the column names (`src/main.py:88-90`). -/
def missingColumns (cols : List String) : List String :=
  REQUIRED_COLUMNS.filter (fun c => !((cols.map normalizeCol).contains c))

/-- `validate_and_prepare(df_raw)` (`src/main.py:86-112`): returns
`(None, missing)` when any required column is absent, otherwise the
prepared record set and an empty missing list. -/
def validate_and_prepare (cols : List String) (raws : List RawRecord) :
    Option (List Rec) × List String :=
  let missing := missingColumns cols
  if missing.isEmpty then (some (raws.map prepareRow), [])
  else (none, missing)

/-- Date-range filter
`df[(df['date'] >= date_from) & (df['date'] <= date_to)]`
(`src/main.py:146`); a `NaT` date compares `False` on both sides. -/
def dateRangeFilter (dateFrom dateTo : ℤ) (rows : List Rec) : List Rec :=
  rows.filter (fun r =>
    match r.date with
    | some d => decide (dateFrom ≤ d) && decide (d ≤ dateTo)
    | none => false)

/-- Executive set-membership filter
`df_filtered[df_filtered['executive name'].isin(selected_executives)]`
(`src/main.py:155`). -/
def execFilter (sel : List String) (rows : List Rec) : List Rec :=
  rows.filter (fun r => decide (r.executive ∈ sel))

/-- The error of the filter stage: `date_from > date_to`
(`src/main.py:142-144`). -/
inductive FilterError where
  | invalidRange
deriving DecidableEq

/-- The sidebar filter stage (`src/main.py:142-155`): if
`date_from > date_to` the run stops with an error before any filtering,
otherwise the date-range filter and the executive filter are applied in
sequence. -/
def filterStage (dateFrom dateTo : ℤ) (sel : List String) (rows : List Rec) :
    Except FilterError (List Rec) :=
  if dateFrom > dateTo then Except.error FilterError.invalidRange
  else Except.ok (execFilter sel (dateRangeFilter dateFrom dateTo rows))

/-- `df_filtered['sales value'].sum()` (`src/main.py:158`). -/
def totalSales (rows : List Rec) : ℚ := (rows.map (fun r => r.salesValue)).sum

/-- `df_filtered['paid amount'].sum()` (`src/main.py:159`). -/
def totalPaid (rows : List Rec) : ℚ := (rows.map (fun r => r.paidAmount)).sum

/-- `df_filtered['outstanding'].sum()` (`src/main.py:160`). -/
def totalOutstanding (rows : List Rec) : ℚ :=
  (rows.map (fun r => r.outstanding)).sum

/-- `df_filtered['exec_commission_calc'].sum()` (`src/main.py:161`). -/
def totalExecCommission (rows : List Rec) : ℚ :=
  (rows.map (fun r => r.execCommissionCalc)).sum

/-- `team_leader_commission = total_paid * 0.002` (`src/main.py:162`). -/
def teamLeaderCommission (rows : List Rec) : ℚ :=
  totalPaid rows * (2 / 1000)

/-- The distinct executive names of a view,
`df_filtered['executive name'].unique()` (`src/main.py:149`). -/
def distinctExecutives (rows : List Rec) : List String :=
  (rows.map (fun r => r.executive)).dedup

/-- The distinct customer names of a view (the group keys of
`df_filtered.groupby('customer name')`). -/
def distinctCustomers (rows : List Rec) : List String :=
  (rows.map (fun r => r.customer)).dedup

/-- `df_filtered.groupby('executive name').agg({'sales value':'sum','paid amount':'sum'})`
(`src/main.py:176`): per distinct executive, the summed sales value and
paid amount. -/
def groupbyExecutive (rows : List Rec) : List (String × ℚ × ℚ) :=
  (distinctExecutives rows).map (fun e =>
    let grp := rows.filter (fun r => decide (r.executive = e))
    (e, (grp.map (fun r => r.salesValue)).sum,
        (grp.map (fun r => r.paidAmount)).sum))

/-- `df_filtered.groupby('customer name')['outstanding'].sum()`
(`src/main.py:182`, `src/main.py:236`): per distinct customer, the summed
outstanding. -/
def groupbyCustomerOutstanding (rows : List Rec) : List (String × ℚ) :=
  (distinctCustomers rows).map (fun c =>
    (c, ((rows.filter (fun r => decide (r.customer = c))).map
          (fun r => r.outstanding)).sum))

/-- `df_filtered.groupby('customer name')['sales value'].sum()`
(the inner aggregate of `src/main.py:216`). -/
def groupbyCustomerSales (rows : List Rec) : List (String × ℚ) :=
  (distinctCustomers rows).map (fun c =>
    (c, ((rows.filter (fun r => decide (r.customer = c))).map
          (fun r => r.salesValue)).sum))

/-- `df_filtered.groupby('date').agg({'sales value':'sum','paid amount':'sum'})`
(`src/main.py:187`); pandas drops the `NaT` group, so the keys are the
distinct parsed (`some`) dates. -/
def groupbyDate (rows : List Rec) : List (ℤ × ℚ × ℚ) :=
  ((rows.filterMap (fun r => r.date)).dedup).map (fun d =>
    let grp := rows.filter (fun r => decide (r.date = some d))
    (d, (grp.map (fun r => r.salesValue)).sum,
        (grp.map (fun r => r.paidAmount)).sum))

/-- Mean of a list of rationals, as pandas computes
`Series.mean()`: the mean of an empty series is `NaN`, modelled as
`none`. -/
def seriesMean (l : List ℚ) : Option ℚ :=
  if l.isEmpty then none else some (l.sum / (l.length : ℚ))

/-- `df_filtered.groupby('customer name')['sales value'].sum().mean()`
(`src/main.py:216`). -/
def avgSalesPerCustomer (rows : List Rec) : Option ℚ :=
  seriesMean ((groupbyCustomerSales rows).map (fun p => p.2))

/-- `df_filtered.groupby('customer name')['outstanding'].sum().mean()`
(`src/main.py:218`). -/
def avgOutstandingPerCustomer (rows : List Rec) : Option ℚ :=
  seriesMean ((groupbyCustomerOutstanding rows).map (fun p => p.2))

/-- The Sales Analysis in-page executive filter (`src/main.py:194-198`):
a non-empty selection restricts the view, an empty selection leaves the
view unchanged. -/
def salesAnalysisView (sel : List String) (rows : List Rec) : List Rec :=
  if sel.isEmpty then rows else execFilter sel rows

/-- The example record of the spec: opening balance 100, sales value 50,
sales return 0, sales in and out 0, paid amount 30, cashback 5,
commission 2. -/
def exampleRaw : RawRecord :=
  { date := RawDate.val 0
    orderNo := "1"
    executive := "e"
    customer := "c"
    openingBalance := RawVal.num 100
    salesValue := RawVal.num 50
    salesReturn := RawVal.num 0
    salesInAndOut := RawVal.num 0
    paidAmount := RawVal.num 30
    cashback := RawVal.num 5
    commission := RawVal.num 2 }

/-- C1: for every derived record, `outstanding` equals
opening balance + sales value − sales return − sales in and out −
paid amount − cashback − commission; on the spec's example record the
result is `113`. -/
theorem outstanding_formula (r : RawRecord) :
    (prepareRow r).outstanding =
      (prepareRow r).openingBalance + (prepareRow r).salesValue
        - (prepareRow r).salesReturn - (prepareRow r).salesInAndOut
        - (prepareRow r).paidAmount - (prepareRow r).cashback
        - (prepareRow r).commission
    ∧ (prepareRow exampleRaw).outstanding = 113 := by
  constructor
  · rfl
  · show (100 : ℚ) + 50 - 0 - 0 - 30 - 5 - 2 = 113
    norm_num

/-- C5: for every record the derived executive commission is
`0.01 × paid amount`, and over every view the team leader commission is
`0.002 × Σ(paid amount)`. -/
theorem commission_formulas :
    (∀ r : RawRecord,
      (prepareRow r).execCommissionCalc = (1 / 100) * (prepareRow r).paidAmount)
    ∧ (∀ rows : List Rec,
      teamLeaderCommission rows =
        (2 / 1000) * (rows.map (fun r => r.paidAmount)).sum) := by
  constructor
  · intro r
    show coerceNum r.paidAmount * (1 / 100) = (1 / 100) * coerceNum r.paidAmount
    ring
  · intro rows
    show totalPaid rows * (2 / 1000) = (2 / 1000) * (rows.map (fun r => r.paidAmount)).sum
    unfold totalPaid
    ring

/-- C6: derivation is total on validated input: each of the seven coerced
monetary fields of a prepared record is `coerceNum` of the raw cell,
`coerceNum` sends missing and unparsable cells to `0`, and both derived
fields are the (always defined) arithmetic formulas over those coerced
values — no null and no error path remains. -/
theorem derived_fields_total :
    (coerceNum RawVal.na = 0)
    ∧ (∀ s, coerceNum (RawVal.bad s) = 0)
    ∧ (∀ r : RawRecord,
        (prepareRow r).openingBalance = coerceNum r.openingBalance
        ∧ (prepareRow r).salesValue = coerceNum r.salesValue
        ∧ (prepareRow r).salesReturn = coerceNum r.salesReturn
        ∧ (prepareRow r).salesInAndOut = coerceNum r.salesInAndOut
        ∧ (prepareRow r).paidAmount = coerceNum r.paidAmount
        ∧ (prepareRow r).cashback = coerceNum r.cashback
        ∧ (prepareRow r).commission = coerceNum r.commission
        ∧ (prepareRow r).outstanding =
            coerceNum r.openingBalance + coerceNum r.salesValue
              - coerceNum r.salesReturn - coerceNum r.salesInAndOut
              - coerceNum r.paidAmount - coerceNum r.cashback
              - coerceNum r.commission
        ∧ (prepareRow r).execCommissionCalc = coerceNum r.paidAmount * (1 / 100)) := by
  refine ⟨rfl, fun s => rfl, fun r => ?_⟩
  exact ⟨rfl, rfl, rfl, rfl, rfl, rfl, rfl, rfl, rfl⟩

/-- C2: whenever at least one required column is absent (after
normalization), validation returns no record set together with exactly
the list of missing normalized names, so the pipeline cannot proceed to
derivation. -/
theorem missing_columns_fail (cols : List String) (raws : List RawRecord)
    (h : missingColumns cols ≠ []) :
    (validate_and_prepare cols raws).1 = none
    ∧ (validate_and_prepare cols raws).2 = missingColumns cols := by
  have hb : (missingColumns cols).isEmpty = false := by
    simpa [List.isEmpty_iff] using h
  simp [validate_and_prepare, hb]

/-- The spec's example of a header missing `commission` (with assorted
case and whitespace noise on the present columns). -/
def colsNoCommission : List String :=
  ["Date ", "ORDER NO", "executive name", " Customer Name",
   "opening balance", "sales value", "sales return",
   "sales in and out", "paid amount", "cashback"]

/-- Witness for C2: dropping `commission` makes validation fail with
exactly `["commission"]`. -/
theorem missing_columns_fail_witness :
    missingColumns colsNoCommission ≠ []
    ∧ (validate_and_prepare colsNoCommission []).1 = none
    ∧ (validate_and_prepare colsNoCommission []).2 = ["commission"] :=
  ⟨by decide,
   (missing_columns_fail colsNoCommission [] (by decide)).1,
   ((missing_columns_fail colsNoCommission [] (by decide)).2).trans (by decide)⟩

/-- C7: when the range start is strictly after the range end, the filter
stage stops with `InvalidRangeError` and produces no records at all. -/
theorem invalid_range_stops (dateFrom dateTo : ℤ) (sel : List String)
    (rows : List Rec) (h : dateFrom > dateTo) :
    filterStage dateFrom dateTo sel rows =
      Except.error FilterError.invalidRange := by
  simp [filterStage, h]

/-- Witness for C7: range `5 > 3` fails on a singleton record set. -/
theorem invalid_range_stops_witness :
    (5 : ℤ) > 3
    ∧ filterStage 5 3 ["e"] [prepareRow exampleRaw] =
        Except.error FilterError.invalidRange :=
  ⟨by decide, invalid_range_stops 5 3 ["e"] [prepareRow exampleRaw] (by decide)⟩

/-- C3: the sidebar executive filter yields an empty view on an empty
selection, and yields exactly the unfiltered view on the full set of
distinct executive names of the view. -/
theorem execFilter_empty_and_full (rows : List Rec) :
    execFilter [] rows = []
    ∧ execFilter (distinctExecutives rows) rows = rows := by
  constructor
  · simp [execFilter]
  · apply List.filter_eq_self.mpr
    intro r hr
    simp only [decide_eq_true_eq, distinctExecutives, List.mem_dedup]
    exact List.mem_map_of_mem _ hr

/-- C10: the Sales Analysis in-page executive multi-select has the
opposite empty-selection semantics to the sidebar filter: an empty
selection leaves the view unchanged, and a non-empty selection keeps
exactly the rows whose executive is selected. -/
theorem salesAnalysisView_semantics (sel : List String) (rows : List Rec) :
    salesAnalysisView [] rows = rows
    ∧ (sel ≠ [] →
        ∀ r : Rec, r ∈ salesAnalysisView sel rows ↔
          r ∈ rows ∧ r.executive ∈ sel) := by
  constructor
  · rfl
  · intro hsel r
    have hb : sel.isEmpty = false := by simpa [List.isEmpty_iff] using hsel
    simp [salesAnalysisView, hb, execFilter, List.mem_filter]

/-- Witness for C10 at a singleton view and the selection `["x"]`. -/
theorem salesAnalysisView_semantics_witness :
    salesAnalysisView [] [prepareRow exampleRaw] = [prepareRow exampleRaw]
    ∧ (prepareRow exampleRaw ∈ salesAnalysisView ["x"] [prepareRow exampleRaw] ↔
        prepareRow exampleRaw ∈ [prepareRow exampleRaw]
          ∧ (prepareRow exampleRaw).executive ∈ ["x"]) :=
  ⟨(salesAnalysisView_semantics ["x"] [prepareRow exampleRaw]).1,
   (salesAnalysisView_semantics ["x"] [prepareRow exampleRaw]).2
     (by decide) (prepareRow exampleRaw)⟩

/-- C4: for a valid range (`from ≤ to`) the date filter keeps exactly the
records whose parsed date lies inclusively between the bounds; a record
with an unknown (`NaT`) date is never kept by the filter, yet derivation
keeps every raw row (unknown date included) in the derived set. -/
theorem dateRangeFilter_spec (dateFrom dateTo : ℤ) (h : dateFrom ≤ dateTo)
    (rows : List Rec) :
    (∀ r : Rec, r ∈ dateRangeFilter dateFrom dateTo rows ↔
        r ∈ rows ∧ ∃ d, r.date = some d ∧ dateFrom ≤ d ∧ d ≤ dateTo)
    ∧ (∀ r : Rec, r.date = none → r ∉ dateRangeFilter dateFrom dateTo rows)
    ∧ (∀ (cols : List String) (raws : List RawRecord) (out : List Rec),
        (validate_and_prepare cols raws).1 = some out →
        ∀ raw ∈ raws, prepareRow raw ∈ out) := by
  have hmem : ∀ r : Rec, r ∈ dateRangeFilter dateFrom dateTo rows ↔
      r ∈ rows ∧ ∃ d, r.date = some d ∧ dateFrom ≤ d ∧ d ≤ dateTo := by
    intro r
    rw [dateRangeFilter, List.mem_filter]
    cases hd : r.date with
    | none => simp [hd]
    | some d => simp [hd]
  refine ⟨hmem, ?_, ?_⟩
  · intro r hnone hin
    rcases (hmem r).mp hin with ⟨_, d, hd, _⟩
    rw [hnone] at hd
    cases hd
  · intro cols raws out hout raw hraw
    simp only [validate_and_prepare] at hout
    split at hout
    · cases hout
      exact List.mem_map_of_mem _ hraw
    · cases hout

/-- A concrete record with a parsed date inside the range `[0, 10]`. -/
def recInRange : Rec :=
  { date := some 5, orderNo := "1", executive := "e", customer := "c"
    openingBalance := 0, salesValue := 0, salesReturn := 0
    salesInAndOut := 0, paidAmount := 0, cashback := 0, commission := 0
    outstanding := 0, execCommissionCalc := 0 }

/-- A concrete record with an unknown (`NaT`) date. -/
def recNoDate : Rec := { recInRange with date := none }

/-- Witness for C4: on the range `[0, 10]`, the record dated `5` is kept
and the record with an unknown date is excluded. -/
theorem dateRangeFilter_spec_witness :
    (0 : ℤ) ≤ 10
    ∧ recInRange ∈ dateRangeFilter 0 10 [recInRange, recNoDate]
    ∧ recNoDate ∉ dateRangeFilter 0 10 [recInRange, recNoDate] :=
  ⟨by decide,
   ((dateRangeFilter_spec 0 10 (by decide) [recInRange, recNoDate]).1
       recInRange).mpr
     ⟨List.mem_cons_self _ _, 5, rfl, by decide, by decide⟩,
   (dateRangeFilter_spec 0 10 (by decide) [recInRange, recNoDate]).2.1
     recNoDate rfl⟩

/-- C8: every aggregation of the app tolerates the empty view: the scalar
totals and the team leader commission are `0`, every group-by result is
empty, and the two per-customer means are the empty mean (`none`, the
model of pandas `NaN`) — none of them fails. -/
theorem empty_view_aggregations :
    totalSales [] = 0 ∧ totalPaid [] = 0 ∧ totalOutstanding [] = 0
    ∧ totalExecCommission [] = 0 ∧ teamLeaderCommission [] = 0
    ∧ groupbyExecutive [] = [] ∧ groupbyCustomerOutstanding [] = []
    ∧ groupbyCustomerSales [] = [] ∧ groupbyDate [] = []
    ∧ avgSalesPerCustomer [] = none ∧ avgOutstandingPerCustomer [] = none := by
  refine ⟨rfl, rfl, rfl, rfl, ?_, rfl, rfl, rfl, rfl, rfl, rfl⟩
  show (0 : ℚ) * (2 / 1000) = 0
  norm_num

/-- Summing `if k = c then v else 0` over a list that does not hold `k`
gives `0`. -/
lemma sum_map_ite_zero (keys : List String) (k : String) (v : ℚ)
    (hk : k ∉ keys) :
    (keys.map (fun c => if k = c then v else 0)).sum = 0 := by
  induction keys with
  | nil => rfl
  | cons a as ih =>
    have hka : k ≠ a := fun he => hk (he ▸ List.mem_cons_self a as)
    have hkas : k ∉ as := fun hm => hk (List.mem_cons_of_mem a hm)
    simp [hka, ih hkas]

/-- Summing `if k = c then v else 0` over a duplicate-free list holding
`k` gives `v`. -/
lemma sum_map_ite_single (keys : List String) (k : String) (v : ℚ)
    (hnd : keys.Nodup) (hk : k ∈ keys) :
    (keys.map (fun c => if k = c then v else 0)).sum = v := by
  induction keys with
  | nil => cases hk
  | cons a as ih =>
    rcases List.mem_cons.mp hk with he | hm
    · subst he
      have hnot : k ∉ as := (List.nodup_cons.mp hnd).1
      simp [sum_map_ite_zero as k v hnot]
    · have hka : k ≠ a := fun he => (List.nodup_cons.mp hnd).1 (he ▸ hm)
      simp [hka, ih (List.nodup_cons.mp hnd).2 hm]

/-- Partitioning a row list by a key drawn from a duplicate-free covering
key list and summing the per-group sums reproduces the direct sum. -/
lemma sum_over_groups (key : Rec → String) (val : Rec → ℚ)
    (keys : List String) (hnd : keys.Nodup) (rows : List Rec)
    (hcov : ∀ r ∈ rows, key r ∈ keys) :
    (keys.map (fun c =>
      ((rows.filter (fun r => decide (key r = c))).map val).sum)).sum
      = (rows.map val).sum := by
  induction rows with
  | nil => simp
  | cons r rs ih =>
    have hcov2 : ∀ x ∈ rs, key x ∈ keys :=
      fun x hx => hcov x (List.mem_cons_of_mem r hx)
    have hr : key r ∈ keys := hcov r (List.mem_cons_self r rs)
    have hstep : ∀ c ∈ keys,
        (((r :: rs).filter (fun x => decide (key x = c))).map val).sum
          = (if key r = c then val r else 0)
            + ((rs.filter (fun x => decide (key x = c))).map val).sum := by
      intro c _
      by_cases hc : key r = c
      · simp [List.filter_cons, hc]
      · simp [List.filter_cons, hc]
    rw [List.map_congr_left hstep, List.sum_map_add,
        sum_map_ite_single keys (key r) (val r) hnd hr, ih hcov2]
    simp [add_comm]

/-- C9: summing the group-by-customer outstanding sums over all distinct
customers equals the scalar total outstanding of the same view. -/
theorem groupbyCustomer_total_consistent (rows : List Rec) :
    ((groupbyCustomerOutstanding rows).map (fun p => p.2)).sum
      = totalOutstanding rows := by
  unfold groupbyCustomerOutstanding totalOutstanding distinctCustomers
  rw [List.map_map]
  exact sum_over_groups (fun r => r.customer) (fun r => r.outstanding)
    ((rows.map (fun r => r.customer)).dedup)
    (List.nodup_dedup _) rows
    (fun r hr => List.mem_dedup.mpr (List.mem_map_of_mem _ hr))
